import Mathlib

/-!
Verification of the trend-momentum-x multi-timeframe signal and
position-lifecycle engine.

Each definition below is a shallow embedding of a function in
`src/strategy/`.  Market data, indicator columns, order acknowledgements
and wall-clock time are external collaborators; they appear here as
explicit arguments (an `Option` models a value that may be unavailable,
a `Bool` oracle models the success or failure of an order mutation, and
`ℚ` models the Python floats, whose role in this code is purely
order-theoretic).
-/

namespace TrendMomentumX

/-- Per-timeframe trend state (`trend_analysis.py`, `TrendState`). -/
inductive TrendState
  | bullish
  | bearish
  | neutral
deriving DecidableEq, Repr

/-- Aggregate trade-mode decision (`trend_analysis.py`, `TradeMode`). -/
inductive TradeMode
  | long_only
  | short_only
  | no_trade
deriving DecidableEq, Repr

/-- Number of timeframes among the three whose trend equals `target`
(the `sum(1 for t in trends.values() if t == ...)` counts in
`TrendAnalyzer.get_trade_mode`, lines 119-120). -/
def count_trends (target t15 t5 t1 : TrendState) : Nat :=
  (if t15 = target then 1 else 0)
    + (if t5 = target then 1 else 0)
    + (if t1 = target then 1 else 0)

/-- `TrendAnalyzer.get_trade_mode` (trend_analysis.py lines 107-135) as a
function of the three per-timeframe trend states it aggregates. -/
def get_trade_mode (t15 t5 t1 : TrendState) : TradeMode :=
  let bullish_count := count_trends .bullish t15 t5 t1
  let bearish_count := count_trends .bearish t15 t5 t1
  if t15 = .bullish ∧ 2 ≤ bullish_count then .long_only
  else if t15 = .bearish ∧ 2 ≤ bearish_count then .short_only
  else .no_trade

/-- C1: for every combination of the three per-timeframe trend states,
`get_trade_mode` returns `long_only` iff the 15min trend is bullish and at
least 2 timeframes are bullish, returns `short_only` iff the 15min trend is
bearish and at least 2 timeframes are bearish, and returns `no_trade` in
every other combination. -/
theorem get_trade_mode_spec (t15 t5 t1 : TrendState) :
    (get_trade_mode t15 t5 t1 = .long_only ↔
      (t15 = .bullish ∧ 2 ≤ count_trends .bullish t15 t5 t1)) ∧
    (get_trade_mode t15 t5 t1 = .short_only ↔
      (t15 = .bearish ∧ 2 ≤ count_trends .bearish t15 t5 t1)) ∧
    (¬(t15 = .bullish ∧ 2 ≤ count_trends .bullish t15 t5 t1) →
      ¬(t15 = .bearish ∧ 2 ≤ count_trends .bearish t15 t5 t1) →
      get_trade_mode t15 t5 t1 = .no_trade) := by
  cases t15 <;> cases t5 <;> cases t1 <;> decide

/-- Concrete instance of `get_trade_mode_spec`: 15min bullish, 5min bullish,
1min neutral. -/
theorem get_trade_mode_spec_witness :
    (get_trade_mode .bullish .bullish .neutral = .long_only ↔
      (TrendState.bullish = .bullish ∧
        2 ≤ count_trends .bullish .bullish .bullish .neutral)) ∧
    (get_trade_mode .bullish .bullish .neutral = .short_only ↔
      (TrendState.bullish = .bearish ∧
        2 ≤ count_trends .bearish .bullish .bullish .neutral)) ∧
    (¬(TrendState.bullish = .bullish ∧
        2 ≤ count_trends .bullish .bullish .bullish .neutral) →
      ¬(TrendState.bullish = .bearish ∧
        2 ≤ count_trends .bearish .bullish .bullish .neutral) →
      get_trade_mode .bullish .bullish .neutral = .no_trade) :=
  get_trade_mode_spec .bullish .bullish .neutral

/-- Configurable knobs read by `SignalGenerator.__init__` (signals.py
lines 23-31) that govern the entry decision: `MIN_SIGNALS_REQUIRED`,
`PATTERN_REQUIRED` and the four signal weights.  None of them is present
in the shipped `utils/config.py`, so they stay abstract parameters here. -/
structure SignalConfig where
  min_signals_required : Nat
  pattern_required : Bool
  weight_rsi : ℚ
  weight_wae : ℚ
  weight_price : ℚ
  weight_pattern : ℚ
deriving DecidableEq, Repr

/-- The four factor booleans computed by `check_long_entry` /
`check_short_entry` before the scoring block (signals.py lines 69, 81, 85,
89 resp. 177, 189, 193, 197): RSI cross-back, WAE explosion with matching
trend sign, close beyond the previous bar's high/low, and the
order-block/FVG pattern on the 5min timeframe. -/
structure EntrySignals where
  rsi_cross : Bool
  wae_explosion : Bool
  price_break : Bool
  pattern_edge : Bool
deriving DecidableEq, Repr

/-- The decision record returned by the entry check: the boolean decision
plus the `score`, `max_score` and `signals_met` fields added to the
signals dict (signals.py lines 134-136 / 242-244). -/
structure EntryResult where
  accepted : Bool
  score : ℚ
  max_score : ℚ
  signals_met : Nat
deriving DecidableEq, Repr

/-- The scoring and acceptance block shared verbatim by
`SignalGenerator.check_long_entry` (signals.py lines 98-145) and
`SignalGenerator.check_short_entry` (lines 206-253), as a function of the
four factor booleans: each met factor adds its weight to `signal_score`;
the pattern weight enters `total_weight` only when the pattern is
required, and an unrequired pattern adds half its weight as a bonus;
`signals_met` counts the true factors among the core list (which includes
`pattern_edge` only when the pattern is required); the check passes iff
`signals_met >= min_signals_required`. -/
def entry_decision (cfg : SignalConfig) (s : EntrySignals) : EntryResult :=
  let signal_score :=
    (if s.rsi_cross then cfg.weight_rsi else 0)
      + (if s.wae_explosion then cfg.weight_wae else 0)
      + (if s.price_break then cfg.weight_price else 0)
      + (if cfg.pattern_required then
          (if s.pattern_edge then cfg.weight_pattern else 0)
         else
          (if s.pattern_edge then cfg.weight_pattern * (1 / 2) else 0))
  let total_weight :=
    cfg.weight_rsi + cfg.weight_wae + cfg.weight_price
      + (if cfg.pattern_required then cfg.weight_pattern else 0)
  let signals_met :=
    (if s.rsi_cross then 1 else 0)
      + (if s.wae_explosion then 1 else 0)
      + (if s.price_break then 1 else 0)
      + (if cfg.pattern_required && s.pattern_edge then 1 else 0)
  { accepted := decide (cfg.min_signals_required ≤ signals_met)
    score := signal_score
    max_score := total_weight
    signals_met := signals_met }

/-- The acceptance rule stated by the specification for `checkEntry`
(spec section 4.2 and section 8), written from the spec's words for
comparison with `entry_decision`: accept iff the pattern factor is present
and at least one of the volatility-expansion and breakout factors is
true. -/
def spec_entry_rule (s : EntrySignals) : Bool :=
  s.pattern_edge && (s.wae_explosion || s.price_break)

/-- C2: the acceptance decision of the shipped `check_long_entry` /
`check_short_entry` scoring block differs from the specified rule
"accept iff pattern and (expansion or breakout)" at some factor
combination, for every possible configuration of `min_signals_required`
and `pattern_required`: when at most 3 signals are required, the
combination rsi=T, wae=T, break=T, pattern=F is accepted though the rule
rejects it; when at least 4 are required, pattern=T with wae=T alone is
rejected though the rule accepts it. -/
theorem entry_decision_ne_spec_rule (cfg : SignalConfig) :
    ∃ s : EntrySignals,
      (entry_decision cfg s).accepted ≠ spec_entry_rule s := by
  rcases le_or_lt cfg.min_signals_required 3 with h | h
  · refine ⟨⟨true, true, true, false⟩, ?_⟩
    simp [entry_decision, spec_entry_rule]
    omega
  · refine ⟨⟨false, true, false, true⟩, ?_⟩
    cases hp : cfg.pattern_required <;>
      · simp [entry_decision, spec_entry_rule, hp]
        omega

/-- C3: contrary to the specified mandatory-pattern gate (reject with
score 0 whenever the pattern factor is false), the shipped scoring block
accepts the combination rsi=T, wae=T, break=T, pattern=F whenever at most
3 signals are required, and reports a strictly positive score for it
whenever the WAE weight is positive and the other weights nonnegative. -/
theorem entry_decision_pattern_not_mandatory (cfg : SignalConfig)
    (hmin : cfg.min_signals_required ≤ 3)
    (hrsi : 0 ≤ cfg.weight_rsi) (hwae : 0 < cfg.weight_wae)
    (hprice : 0 ≤ cfg.weight_price) :
    (entry_decision cfg ⟨true, true, true, false⟩).accepted = true ∧
      0 < (entry_decision cfg ⟨true, true, true, false⟩).score := by
  constructor
  · simp only [entry_decision, Bool.and_false, if_true, if_false]
    exact decide_eq_true hmin
  · simp only [entry_decision, Bool.and_false, if_true, if_false]
    cases cfg.pattern_required <;> simp <;> linarith

/-- Concrete instance of `entry_decision_pattern_not_mandatory` at the
configuration the repository's own tests describe
(`min_signals_required = 3`, `pattern_required = true`, unit weights with
pattern weight 2). -/
theorem entry_decision_pattern_not_mandatory_witness :
    (entry_decision ⟨3, true, 1, 1, 1, 2⟩ ⟨true, true, true, false⟩).accepted = true ∧
      0 < (entry_decision ⟨3, true, 1, 1, 1, 2⟩ ⟨true, true, true, false⟩).score :=
  entry_decision_pattern_not_mandatory ⟨3, true, 1, 1, 1, 2⟩
    (by norm_num) (by norm_num) (by norm_num) (by norm_num)

/-- Side of a detected iceberg level (`side` key of the dicts returned by
`OrderBookAnalyzer.detect_icebergs`). -/
inductive Side
  | bid
  | ask
deriving DecidableEq, Repr

/-- A detected iceberg level (orderbook.py lines 35-53): side, price and
size. -/
structure Iceberg where
  side : Side
  price : ℚ
  size : ℚ
deriving DecidableEq, Repr

/-- The thresholds read by `OrderBookAnalyzer.__init__` (orderbook.py
lines 13-15): long / short depth-imbalance thresholds and the
iceberg-check switch. -/
structure OrderBookConfig where
  imbalance_long_threshold : ℚ
  imbalance_short_threshold : ℚ
  iceberg_check_enabled : Bool
deriving DecidableEq, Repr

/-- The distinct `reason` strings set by `confirm_long_entry` /
`confirm_short_entry`, with their numeric interpolations dropped:
`dataUnavailable` = "OrderBook data unavailable", `insufficientImbalance`
= "Insufficient bid/ask imbalance: ...", `icebergsBlocking` = "Detected
... iceberg orders on the ask/bid side", `entryConfirmed` = "Long/Short
entry confirmed with imbalance ...", and `blank` for the initial empty
string. -/
inductive ObReason
  | dataUnavailable
  | insufficientImbalance
  | icebergsBlocking
  | entryConfirmed
  | blank
deriving DecidableEq, Repr

/-- The confirmation dict built by the orderbook entry checks
(orderbook.py lines 59-64 / 102-107). -/
structure ObConfirmation where
  imbalance : Option ℚ
  icebergs : List Iceberg
  confirmed : Bool
  reason : ObReason
deriving DecidableEq, Repr

/-- `OrderBookAnalyzer.confirm_long_entry` (orderbook.py lines 55-96) as a
function of the depth imbalance (None when unavailable) and the detected
iceberg list: fail closed when imbalance is unavailable; reject when the
imbalance is below the long threshold; when iceberg checking is enabled,
reject when any detected iceberg sits on the ask side; otherwise
confirm. -/
def confirm_long_entry (cfg : OrderBookConfig) (imb : Option ℚ)
    (ice : List Iceberg) : Bool × ObConfirmation :=
  match imb with
  | none => (false, ⟨none, [], false, .dataUnavailable⟩)
  | some v =>
    if v < cfg.imbalance_long_threshold then
      (false, ⟨some v, [], false, .insufficientImbalance⟩)
    else if cfg.iceberg_check_enabled then
      let ask_icebergs := ice.filter (fun i => i.side = .ask)
      if ask_icebergs.isEmpty then
        (true, ⟨some v, ice, true, .entryConfirmed⟩)
      else
        (false, ⟨some v, ice, false, .icebergsBlocking⟩)
    else
      (true, ⟨some v, [], true, .entryConfirmed⟩)

/-- `OrderBookAnalyzer.confirm_short_entry` (orderbook.py lines 98-139),
mirrored: reject when the imbalance is above the short threshold, and
reject on bid-side icebergs when iceberg checking is enabled. -/
def confirm_short_entry (cfg : OrderBookConfig) (imb : Option ℚ)
    (ice : List Iceberg) : Bool × ObConfirmation :=
  match imb with
  | none => (false, ⟨none, [], false, .dataUnavailable⟩)
  | some v =>
    if cfg.imbalance_short_threshold < v then
      (false, ⟨some v, [], false, .insufficientImbalance⟩)
    else if cfg.iceberg_check_enabled then
      let bid_icebergs := ice.filter (fun i => i.side = .bid)
      if bid_icebergs.isEmpty then
        (true, ⟨some v, ice, true, .entryConfirmed⟩)
      else
        (false, ⟨some v, ice, false, .icebergsBlocking⟩)
    else
      (true, ⟨some v, [], true, .entryConfirmed⟩)

/-- C6: the orderbook confirmation fails closed — with the imbalance
unavailable both checks return `confirmed = false` with the
data-unavailable reason — and with the imbalance available the long check
confirms iff the imbalance is at least the long threshold and (when
iceberg checking is enabled) no detected iceberg sits on the ask side;
mirrored for the short check with the imbalance at most the short
threshold and bid-side icebergs blocking.  Favorable-side icebergs never
block: the iff conditions mention only ask-side icebergs for longs and
only bid-side icebergs for shorts. -/
theorem confirm_entry_spec (cfg : OrderBookConfig) (imb : Option ℚ)
    (ice : List Iceberg) :
    (imb = none →
      confirm_long_entry cfg imb ice = (false, ⟨none, [], false, .dataUnavailable⟩) ∧
      confirm_short_entry cfg imb ice = (false, ⟨none, [], false, .dataUnavailable⟩)) ∧
    (∀ v : ℚ, imb = some v →
      ((confirm_long_entry cfg imb ice).1 = true ↔
        cfg.imbalance_long_threshold ≤ v ∧
          (cfg.iceberg_check_enabled = true → ∀ i ∈ ice, i.side ≠ Side.ask)) ∧
      ((confirm_short_entry cfg imb ice).1 = true ↔
        v ≤ cfg.imbalance_short_threshold ∧
          (cfg.iceberg_check_enabled = true → ∀ i ∈ ice, i.side ≠ Side.bid))) := by
  constructor
  · rintro rfl
    exact ⟨rfl, rfl⟩
  · rintro v rfl
    constructor
    · simp only [confirm_long_entry]
      split_ifs with h1 h2 h3
      · simp only [Bool.false_eq_true, false_iff]
        intro hc
        exact absurd hc.1 (not_le.mpr h1)
      · simp only [true_iff]
        refine ⟨not_lt.mp h1, fun _ i hi hside => ?_⟩
        have := List.filter_eq_nil_iff.mp (List.isEmpty_iff.mp h3) i hi
        simp [hside] at this
      · simp only [Bool.false_eq_true, false_iff]
        intro hc
        rcases List.isEmpty_eq_false.mp (Bool.not_eq_true _ ▸ h3) with hne
        rcases List.exists_mem_of_ne_nil _ hne with ⟨i, hi⟩
        rcases List.mem_filter.mp hi with ⟨hmem, hside⟩
        exact hc.2 h2 i hmem (by simpa using hside)
      · simp only [true_iff]
        exact ⟨not_lt.mp h1, fun hc => absurd hc (by simpa using h2)⟩
    · simp only [confirm_short_entry]
      split_ifs with h1 h2 h3
      · simp only [Bool.false_eq_true, false_iff]
        intro hc
        exact absurd hc.1 (not_le.mpr h1)
      · simp only [true_iff]
        refine ⟨not_lt.mp h1, fun _ i hi hside => ?_⟩
        have := List.filter_eq_nil_iff.mp (List.isEmpty_iff.mp h3) i hi
        simp [hside] at this
      · simp only [Bool.false_eq_true, false_iff]
        intro hc
        rcases List.isEmpty_eq_false.mp (Bool.not_eq_true _ ▸ h3) with hne
        rcases List.exists_mem_of_ne_nil _ hne with ⟨i, hi⟩
        rcases List.mem_filter.mp hi with ⟨hmem, hside⟩
        exact hc.2 h2 i hmem (by simpa using hside)
      · simp only [true_iff]
        exact ⟨not_lt.mp h1, fun hc => absurd hc (by simpa using h2)⟩

/-- Concrete instance of `confirm_entry_spec`: imbalance 1.8 against the
default thresholds (1.5 long, 0.6667 short) with one bid-side iceberg and
iceberg checking enabled. -/
theorem confirm_entry_spec_witness :
    ((some (18 / 10) : Option ℚ) = none →
      confirm_long_entry ⟨3 / 2, 6667 / 10000, true⟩ (some (18 / 10)) [⟨.bid, 5000, 50⟩]
          = (false, ⟨none, [], false, .dataUnavailable⟩) ∧
      confirm_short_entry ⟨3 / 2, 6667 / 10000, true⟩ (some (18 / 10)) [⟨.bid, 5000, 50⟩]
          = (false, ⟨none, [], false, .dataUnavailable⟩)) ∧
    (∀ v : ℚ, (some (18 / 10) : Option ℚ) = some v →
      ((confirm_long_entry ⟨3 / 2, 6667 / 10000, true⟩ (some (18 / 10)) [⟨.bid, 5000, 50⟩]).1 = true ↔
        (3 / 2 : ℚ) ≤ v ∧
          ((true : Bool) = true → ∀ i ∈ [(⟨.bid, 5000, 50⟩ : Iceberg)], i.side ≠ Side.ask)) ∧
      ((confirm_short_entry ⟨3 / 2, 6667 / 10000, true⟩ (some (18 / 10)) [⟨.bid, 5000, 50⟩]).1 = true ↔
        v ≤ (6667 / 10000 : ℚ) ∧
          ((true : Bool) = true → ∀ i ∈ [(⟨.bid, 5000, 50⟩ : Iceberg)], i.side ≠ Side.bid))) :=
  confirm_entry_spec ⟨3 / 2, 6667 / 10000, true⟩ (some (18 / 10)) [⟨.bid, 5000, 50⟩]

/-- Position direction (`direction` key of the position dicts managed by
`ExitManager`). -/
inductive Direction
  | long
  | short
deriving DecidableEq, Repr

/-- The per-position record kept in `ExitManager.active_positions`
(exits.py lines 29-38).  `entry_time` is modelled by the elapsed-minutes
tick input and `size` plays no role in the modelled logic. -/
structure PositionState where
  direction : Direction
  entry_price : ℚ
  stop_price : ℚ
  target_price : ℚ
  trailing_stop_activated : Bool
  breakeven_activated : Bool
deriving DecidableEq, Repr

/-- The knobs read by `ExitManager.__init__` (exits.py lines 16-21):
time-exit limit in minutes, breakeven trigger ratio, breakeven offset in
ticks, and the (hardcoded-true) trailing switch. -/
structure ExitConfig where
  time_exit_minutes : ℚ
  breakeven_trigger_ratio : ℚ
  breakeven_offset_ticks : ℚ
  trailing_enabled : Bool
deriving DecidableEq, Repr

/-- Python truthiness of a fetched price: `if not current_price` treats
both an unavailable price and a zero price as absent (exits.py lines
68-69, 139-140, 218-219). -/
def as_price : Option ℚ → Option ℚ
  | none => none
  | some p => if p = 0 then none else some p

/-- The exit signal dict returned by `_check_exit_conditions`:
`should_exit` plus the reason string. -/
structure ExitSignal where
  should_exit : Bool
  reason : String
deriving DecidableEq, Repr

/-- `ExitManager._check_exit_conditions` (exits.py lines 62-108) as a
function of the position record, the fetched current price, the minutes
elapsed since entry, and the boolean outcome of the 5min MACD
trend-reversal check: target and stop first (per direction), then the
time exit when the elapsed time strictly exceeds the limit and the price
shows no net progress versus entry, then the trend reversal; an
unavailable price skips the tick. -/
def check_exit_conditions (cfg : ExitConfig) (pos : PositionState)
    (price : Option ℚ) (elapsed_minutes : ℚ) (trend_reversed : Bool) :
    ExitSignal :=
  match as_price price with
  | none => ⟨false, ""⟩
  | some current =>
    if pos.direction = .long ∧ pos.target_price ≤ current then
      ⟨true, "Target reached"⟩
    else if pos.direction = .long ∧ current ≤ pos.stop_price then
      ⟨true, "Stop loss hit"⟩
    else if pos.direction = .short ∧ current ≤ pos.target_price then
      ⟨true, "Target reached"⟩
    else if pos.direction = .short ∧ pos.stop_price ≤ current then
      ⟨true, "Stop loss hit"⟩
    else if cfg.time_exit_minutes < elapsed_minutes ∧
        ((pos.direction = .long ∧ current ≤ pos.entry_price) ∨
          (pos.direction = .short ∧ pos.entry_price ≤ current)) then
      ⟨true, "Time exit - no progress"⟩
    else if trend_reversed then
      ⟨true, "Trend reversal detected"⟩
    else
      ⟨false, ""⟩

/-- `ExitManager._move_stop_to_breakeven` (exits.py lines 166-202):
returns unchanged when the instrument tick size is unavailable; otherwise
computes `entry ± offset_ticks * tick_size` and adopts it (setting
`breakeven_activated`) when the modify-order call succeeds, or when the
cancel-and-replace fallback succeeds; both failing leaves the position
unchanged. -/
def move_stop_to_breakeven (cfg : ExitConfig) (pos : PositionState)
    (tick_size : Option ℚ) (modify_ok fallback_ok : Bool) : PositionState :=
  match tick_size with
  | none => pos
  | some ts =>
    let offset := cfg.breakeven_offset_ticks * ts
    let new_stop :=
      match pos.direction with
      | .long => pos.entry_price + offset
      | .short => pos.entry_price - offset
    if modify_ok then
      { pos with stop_price := new_stop, breakeven_activated := true }
    else if fallback_ok then
      { pos with stop_price := new_stop, breakeven_activated := true }
    else
      pos

/-- `ExitManager._check_trailing_activation` (exits.py lines 133-164): when
the current price has covered the breakeven trigger
(`|entry - stop| * trigger_ratio`) in the position's favor, first move the
stop to breakeven unless already done, then set
`trailing_stop_activated := true` unconditionally. -/
def check_trailing_activation (cfg : ExitConfig) (pos : PositionState)
    (price : Option ℚ) (tick_size : Option ℚ) (modify_ok fallback_ok : Bool) :
    PositionState :=
  match as_price price with
  | none => pos
  | some current =>
    let risk_amount := |pos.entry_price - pos.stop_price|
    let breakeven_trigger := risk_amount * cfg.breakeven_trigger_ratio
    match pos.direction with
    | .long =>
      if pos.entry_price + breakeven_trigger ≤ current then
        let pos1 :=
          if pos.breakeven_activated = false then
            move_stop_to_breakeven cfg pos tick_size modify_ok fallback_ok
          else pos
        { pos1 with trailing_stop_activated := true }
      else pos
    | .short =>
      if current ≤ pos.entry_price - breakeven_trigger then
        let pos1 :=
          if pos.breakeven_activated = false then
            move_stop_to_breakeven cfg pos tick_size modify_ok fallback_ok
          else pos
        { pos1 with trailing_stop_activated := true }
      else pos

/-- `ExitManager._update_trailing_stop` (exits.py lines 204-238): `sar` is
the SAR value of the last 15sec bar when at least 10 bars are available
(None otherwise).  For a long, the SAR candidate is adopted as the new
stop only when it is strictly above the current stop and strictly below
the current price, and only when the modify-order call succeeds; mirrored
for a short. -/
def update_trailing_stop (pos : PositionState) (sar : Option ℚ)
    (price : Option ℚ) (modify_ok : Bool) : PositionState :=
  match sar with
  | none => pos
  | some current_sar =>
    match as_price price with
    | none => pos
    | some current =>
      match pos.direction with
      | .long =>
        if pos.stop_price < current_sar ∧ current_sar < current then
          if modify_ok then { pos with stop_price := current_sar } else pos
        else pos
      | .short =>
        if current_sar < pos.stop_price ∧ current < current_sar then
          if modify_ok then { pos with stop_price := current_sar } else pos
        else pos

/-- `ExitManager._exit_position` (exits.py lines 240-246) acting on the
key set of `active_positions`: `close_position` is awaited first and the
`del` runs only after it returns, so the id is erased exactly when the
close-order submission succeeds; when it raises, the handler only logs
and the entry remains. -/
def exit_position (active : Finset String) (position_id : String)
    (close_ok : Bool) : Finset String :=
  if close_ok then active.erase position_id else active

/-- The external inputs consumed by one iteration of the
`manage_position` monitoring loop (exits.py lines 43-60): the three
independently fetched prices (`_check_exit_conditions`,
`_check_trailing_activation`, `_update_trailing_stop` each call
`get_current_price`), the elapsed time, the trend-reversal outcome, the
instrument tick size, the SAR value, and the success oracles of the three
order mutations. -/
structure TickInput where
  exit_price : Option ℚ
  elapsed_minutes : ℚ
  trend_reversed : Bool
  activation_price : Option ℚ
  tick_size : Option ℚ
  modify_ok : Bool
  fallback_ok : Bool
  sar : Option ℚ
  trailing_price : Option ℚ
  trailing_modify_ok : Bool
deriving DecidableEq, Repr

/-- One iteration of the `while` loop in `ExitManager.manage_position`
(exits.py lines 43-60): check exit conditions and stop monitoring when
one fires (`none`); otherwise run the trailing-activation check only
while `trailing_stop_activated` is still false, then — re-reading the
flag — the trailing-stop update whenever it is (now) true. -/
def manage_tick (cfg : ExitConfig) (pos : PositionState) (inp : TickInput) :
    Option PositionState :=
  let ex := check_exit_conditions cfg pos inp.exit_price inp.elapsed_minutes
    inp.trend_reversed
  if ex.should_exit then none
  else
    let pos1 :=
      if cfg.trailing_enabled ∧ pos.trailing_stop_activated = false then
        check_trailing_activation cfg pos inp.activation_price inp.tick_size
          inp.modify_ok inp.fallback_ok
      else pos
    let pos2 :=
      if pos1.trailing_stop_activated then
        update_trailing_stop pos1 inp.sar inp.trailing_price
          inp.trailing_modify_ok
      else pos1
    some pos2

/-- The monitoring loop run over a finite list of tick inputs: `none`
once an exit condition has fired, otherwise the position state after
consuming every tick. -/
def manage_run (cfg : ExitConfig) (pos : PositionState) :
    List TickInput → Option PositionState
  | [] => some pos
  | inp :: rest =>
    match manage_tick cfg pos inp with
    | none => none
    | some pos1 => manage_run cfg pos1 rest

/-- The default exit configuration (`utils/config.py` lines 40-42):
TIME_EXIT_MINUTES = 5, BREAKEVEN_TRIGGER = 1.0, BREAKEVEN_OFFSET_TICKS = 5,
with trailing enabled (exits.py line 21). -/
def exit_cfg : ExitConfig := ⟨5, 1, 5, true⟩

/-- The long position used throughout the spec's worked examples:
entry 5000, stop 4995, target 5010, freshly armed. -/
def long_pos : PositionState := ⟨.long, 5000, 4995, 5010, false, false⟩

/-- C4 counterexample: when the close-order submission fails,
`_exit_position` does not remove the position id — the `del` statement
sits after the awaited `close_position` call inside the `try`, so the
exception skips it and "POS123" is still in the active set. -/
theorem exit_position_failure_keeps_id :
    ("POS123" : String) ∈
      exit_position (insert "POS123" (∅ : Finset String)) "POS123" false := by
  simp [exit_position]

/-- C4 (amended): `_exit_position` removes the position id from the
active set exactly when the close-order submission succeeds; when the
submission fails the active set is left unchanged, so the id remains
whenever it was present. -/
theorem exit_position_spec (active : Finset String) (pid : String) :
    pid ∉ exit_position active pid true ∧
      exit_position active pid false = active := by
  refine ⟨?_, rfl⟩
  simp [exit_position]

/-- Concrete instance of `exit_position_spec` on the singleton active set
containing "POS123". -/
theorem exit_position_spec_witness :
    ("POS123" : String) ∉
        exit_position (insert "POS123" (∅ : Finset String)) "POS123" true ∧
      exit_position (insert "POS123" (∅ : Finset String)) "POS123" false =
        insert "POS123" (∅ : Finset String) :=
  exit_position_spec (insert "POS123" (∅ : Finset String)) "POS123"

/-- C8: for the long position entry 5000 / stop 4995 / target 5010 under
the default exit configuration, `_check_exit_conditions` exits with
"Target reached" at price 5010, with "Stop loss hit" at price 4995, and
with "Time exit - no progress" at price 4999 once more than the
5-minute limit has elapsed. -/
theorem check_exit_conditions_cases :
    check_exit_conditions exit_cfg long_pos (some 5010) 0 false =
        ⟨true, "Target reached"⟩ ∧
      check_exit_conditions exit_cfg long_pos (some 4995) 0 false =
        ⟨true, "Stop loss hit"⟩ ∧
      check_exit_conditions exit_cfg long_pos (some 4999) 6 false =
        ⟨true, "Time exit - no progress"⟩ := by
  refine ⟨?_, ?_, ?_⟩ <;>
    · norm_num [check_exit_conditions, as_price, exit_cfg, long_pos]
      try decide

/-- C5: the trailing-stop update never loosens the stop — for a long the
stop after the tick is at least the stop before it, for a short at most —
and whenever the stop changes at all, it was set to the SAR candidate,
which was strictly above the old stop and strictly below the current
price for a long (strictly below the old stop and strictly above the
current price for a short). -/
theorem update_trailing_stop_spec (pos : PositionState)
    (sar price : Option ℚ) (ok : Bool) :
    (pos.direction = .long →
      pos.stop_price ≤ (update_trailing_stop pos sar price ok).stop_price) ∧
    (pos.direction = .short →
      (update_trailing_stop pos sar price ok).stop_price ≤ pos.stop_price) ∧
    ((update_trailing_stop pos sar price ok).stop_price ≠ pos.stop_price →
      ∃ v p, sar = some v ∧ as_price price = some p ∧
        (update_trailing_stop pos sar price ok).stop_price = v ∧
        ((pos.direction = .long ∧ pos.stop_price < v ∧ v < p) ∨
          (pos.direction = .short ∧ v < pos.stop_price ∧ p < v))) := by
  obtain ⟨dir, entry, stop, target, tr, bk⟩ := pos
  rcases sar with _ | v
  · exact ⟨fun _ => le_rfl, fun _ => le_rfl, fun h => absurd rfl h⟩
  · rcases hp : as_price price with _ | p
    · unfold update_trailing_stop
      rw [hp]
      exact ⟨fun _ => le_rfl, fun _ => le_rfl, fun h => absurd rfl h⟩
    · unfold update_trailing_stop
      rw [hp]
      cases dir <;> dsimp only
      · by_cases hc : stop < v ∧ v < p
        · rw [if_pos hc]
          cases ok
          · exact ⟨fun _ => le_rfl, fun h => Direction.noConfusion h,
              fun h => absurd rfl h⟩
          · exact ⟨fun _ => le_of_lt hc.1, fun h => Direction.noConfusion h,
              fun _ => ⟨v, p, rfl, rfl, rfl, Or.inl ⟨rfl, hc.1, hc.2⟩⟩⟩
        · rw [if_neg hc]
          exact ⟨fun _ => le_rfl, fun h => Direction.noConfusion h,
            fun h => absurd rfl h⟩
      · by_cases hc : v < stop ∧ p < v
        · rw [if_pos hc]
          cases ok
          · exact ⟨fun h => Direction.noConfusion h, fun _ => le_rfl,
              fun h => absurd rfl h⟩
          · exact ⟨fun h => Direction.noConfusion h, fun _ => le_of_lt hc.1,
              fun _ => ⟨v, p, rfl, rfl, rfl, Or.inr ⟨rfl, hc.1, hc.2⟩⟩⟩
        · rw [if_neg hc]
          exact ⟨fun h => Direction.noConfusion h, fun _ => le_rfl,
            fun h => absurd rfl h⟩

/-- Concrete instance of `update_trailing_stop_spec`: a long position with
stop 4995, SAR candidate 4998, current price 5005 and a successful order
modification. -/
theorem update_trailing_stop_spec_witness :
    ((⟨.long, 5000, 4995, 5010, true, false⟩ : PositionState).direction = .long →
      (⟨.long, 5000, 4995, 5010, true, false⟩ : PositionState).stop_price ≤
        (update_trailing_stop ⟨.long, 5000, 4995, 5010, true, false⟩
          (some 4998) (some 5005) true).stop_price) ∧
    ((⟨.long, 5000, 4995, 5010, true, false⟩ : PositionState).direction = .short →
      (update_trailing_stop ⟨.long, 5000, 4995, 5010, true, false⟩
          (some 4998) (some 5005) true).stop_price ≤
        (⟨.long, 5000, 4995, 5010, true, false⟩ : PositionState).stop_price) ∧
    ((update_trailing_stop ⟨.long, 5000, 4995, 5010, true, false⟩
          (some 4998) (some 5005) true).stop_price ≠
        (⟨.long, 5000, 4995, 5010, true, false⟩ : PositionState).stop_price →
      ∃ v p, (some (4998 : ℚ)) = some v ∧ as_price (some 5005) = some p ∧
        (update_trailing_stop ⟨.long, 5000, 4995, 5010, true, false⟩
          (some 4998) (some 5005) true).stop_price = v ∧
        (((⟨.long, 5000, 4995, 5010, true, false⟩ : PositionState).direction = .long ∧
            (⟨.long, 5000, 4995, 5010, true, false⟩ : PositionState).stop_price < v ∧ v < p) ∨
          ((⟨.long, 5000, 4995, 5010, true, false⟩ : PositionState).direction = .short ∧
            v < (⟨.long, 5000, 4995, 5010, true, false⟩ : PositionState).stop_price ∧ p < v))) :=
  update_trailing_stop_spec ⟨.long, 5000, 4995, 5010, true, false⟩
    (some 4998) (some 5005) true

/-- C7: for the long position entry 5000 / stop 4995 under the default
exit configuration (trigger ratio 1.0, offset 5 ticks) with tick size
0.25 and a successful stop modification, every activation check at a
price of at least 5005 moves the stop to 5001.25 and sets both
`breakeven_activated` and `trailing_stop_activated`; and the activation
is idempotent — a further monitoring tick at any price still above the
trigger (and below the target) leaves the resulting state unchanged,
because the activation check only runs while `trailing_stop_activated`
is false. -/
theorem breakeven_activation_once (p q : ℚ) (hp : 5005 ≤ p)
    (hq1 : 5005 ≤ q) (hq2 : q < 5010) :
    check_trailing_activation exit_cfg long_pos (some p) (some (1 / 4)) true false =
      ⟨.long, 5000, 5001.25, 5010, true, true⟩ ∧
    manage_tick exit_cfg ⟨.long, 5000, 5001.25, 5010, true, true⟩
        ⟨some q, 0, false, some q, some (1 / 4), true, false, none, some q, true⟩ =
      some ⟨.long, 5000, 5001.25, 5010, true, true⟩ := by
  have hp0 : p ≠ 0 := by intro h; rw [h] at hp; norm_num at hp
  have hq0 : q ≠ 0 := by intro h; rw [h] at hq1; norm_num at hq1
  constructor
  · have habs : |(5000 : ℚ) - 4995| = 5 := by
      rw [show (5000 : ℚ) - 4995 = 5 by norm_num]
      exact abs_of_pos (by norm_num)
    norm_num [check_trailing_activation, as_price, move_stop_to_breakeven,
      long_pos, exit_cfg, hp0, habs, hp]
  · have h1 : ¬(5010 : ℚ) ≤ q := not_le.mpr hq2
    have h2 : ¬q ≤ (20005 / 4 : ℚ) := not_le.mpr (lt_of_lt_of_le (by norm_num) hq1)
    have hds : Direction.long ≠ Direction.short := by decide
    norm_num [manage_tick, check_exit_conditions, check_trailing_activation,
      update_trailing_stop, as_price, exit_cfg, hq0, h1, h2, hds]

/-- Concrete instance of `breakeven_activation_once` at price 5006 on
both ticks. -/
theorem breakeven_activation_once_witness :
    check_trailing_activation exit_cfg long_pos (some 5006) (some (1 / 4)) true false =
      ⟨.long, 5000, 5001.25, 5010, true, true⟩ ∧
    manage_tick exit_cfg ⟨.long, 5000, 5001.25, 5010, true, true⟩
        ⟨some 5006, 0, false, some 5006, some (1 / 4), true, false, none, some 5006, true⟩ =
      some ⟨.long, 5000, 5001.25, 5010, true, true⟩ :=
  breakeven_activation_once 5006 5006 (by norm_num) (by norm_num) (by norm_num)

/-- A monitoring tick at price 5006 on which the breakeven trigger is
met but both the stop-modify call and the cancel-and-replace fallback
fail; no SAR data is available. -/
def failed_breakeven_tick : TickInput :=
  ⟨some 5006, 0, false, some 5006, some (1 / 4), false, false, none, some 5006, true⟩

/-- A later monitoring tick at price 5006 on which SAR data is available
(SAR = 4998) and the trailing stop modification succeeds. -/
def sar_adoption_tick : TickInput :=
  ⟨some 5006, 0, false, some 5006, some (1 / 4), false, false, some 4998, some 5006, true⟩

/-- The trailing-stop update never touches the two activation flags. -/
theorem update_trailing_stop_fields (pos : PositionState)
    (sar price : Option ℚ) (ok : Bool) :
    (update_trailing_stop pos sar price ok).trailing_stop_activated =
        pos.trailing_stop_activated ∧
      (update_trailing_stop pos sar price ok).breakeven_activated =
        pos.breakeven_activated := by
  obtain ⟨dir, e, st, tg, tr, bk⟩ := pos
  unfold update_trailing_stop
  rcases sar with _ | v
  · exact ⟨rfl, rfl⟩
  · rcases as_price price with _ | pp
    · exact ⟨rfl, rfl⟩
    · cases dir <;> dsimp only <;> split_ifs <;> exact ⟨rfl, rfl⟩

/-- Once `trailing_stop_activated` is true, a non-exiting monitoring tick
skips the activation check entirely and only runs the trailing-stop
update, so the flag stays true, `breakeven_activated` is untouched, and
without SAR data the stop price is untouched. -/
theorem manage_tick_trailing_step (cfg : ExitConfig) (pos : PositionState)
    (inp : TickInput) (s1 : PositionState)
    (hT : pos.trailing_stop_activated = true)
    (h : manage_tick cfg pos inp = some s1) :
    s1.trailing_stop_activated = true ∧
      s1.breakeven_activated = pos.breakeven_activated ∧
      (inp.sar = none → s1.stop_price = pos.stop_price) := by
  have hstep : manage_tick cfg pos inp =
      if (check_exit_conditions cfg pos inp.exit_price inp.elapsed_minutes
          inp.trend_reversed).should_exit then none
      else some (update_trailing_stop pos inp.sar inp.trailing_price
        inp.trailing_modify_ok) := by
    unfold manage_tick
    rw [hT]
    simp [hT]
  rw [hstep] at h
  split at h
  · cases h
  · have hs1 : s1 = update_trailing_stop pos inp.sar inp.trailing_price
        inp.trailing_modify_ok := (Option.some.inj h).symm
    subst hs1
    refine ⟨?_, ?_, ?_⟩
    · rw [(update_trailing_stop_fields pos inp.sar inp.trailing_price
        inp.trailing_modify_ok).1, hT]
    · exact (update_trailing_stop_fields pos inp.sar inp.trailing_price
        inp.trailing_modify_ok).2
    · intro hs
      rw [hs]
      rfl

/-- C10 counterexample: starting from the armed long position, a tick
meeting the breakeven trigger on which both stop mutations fail leaves
the stop at 4995 with `breakeven_activated = false` but
`trailing_stop_activated = true`; on a later tick the trailing update
adopts the SAR candidate 4998, so the stop does not stay at its original
price for the remainder of the position's life. -/
theorem failed_breakeven_then_sar_moves_stop :
    manage_run exit_cfg long_pos [failed_breakeven_tick, sar_adoption_tick] =
        some ⟨.long, 5000, 4998, 5010, true, false⟩ ∧
      (4998 : ℚ) ≠ long_pos.stop_price := by
  have habs : |(5000 : ℚ) - 4995| = 5 := by
    rw [show (5000 : ℚ) - 4995 = 5 by norm_num]
    exact abs_of_pos (by norm_num)
  have hds : Direction.long ≠ Direction.short := by decide
  constructor
  · norm_num [manage_run, manage_tick, check_exit_conditions,
      check_trailing_activation, move_stop_to_breakeven, update_trailing_stop,
      as_price, exit_cfg, long_pos, failed_breakeven_tick, sar_adoption_tick,
      habs, hds]
  · norm_num [long_pos]

/-- C10 (amended): once `trailing_stop_activated` is true with
`breakeven_activated` still false — the state `_check_trailing_activation`
leaves behind when the breakeven trigger fires but both the stop-modify
call and the cancel-and-replace fallback fail — every continuation of the
monitoring loop keeps `breakeven_activated` false (the activation check
never runs again), and the stop price can change only through trailing
SAR adoption: over any remaining ticks carrying no SAR data the stop
stays at its original price. -/
theorem trailing_activation_not_retried (cfg : ExitConfig)
    (pos : PositionState) (inputs : List TickInput)
    (hT : pos.trailing_stop_activated = true)
    (hB : pos.breakeven_activated = false) :
    ∀ s', manage_run cfg pos inputs = some s' →
      s'.trailing_stop_activated = true ∧ s'.breakeven_activated = false ∧
        ((∀ i ∈ inputs, i.sar = none) → s'.stop_price = pos.stop_price) := by
  induction inputs generalizing pos with
  | nil =>
    intro s' h
    obtain rfl : pos = s' := Option.some.inj h
    exact ⟨hT, hB, fun _ => rfl⟩
  | cons inp rest ih =>
    intro s' h
    rcases hm : manage_tick cfg pos inp with _ | pos1
    · have hrun : manage_run cfg pos (inp :: rest) = none := by
        have heq : manage_run cfg pos (inp :: rest) =
            match manage_tick cfg pos inp with
            | none => none
            | some p => manage_run cfg p rest := rfl
        rw [heq, hm]
      rw [hrun] at h
      cases h
    · have hrun : manage_run cfg pos (inp :: rest) = manage_run cfg pos1 rest := by
        have heq : manage_run cfg pos (inp :: rest) =
            match manage_tick cfg pos inp with
            | none => none
            | some p => manage_run cfg p rest := rfl
        rw [heq, hm]
      rw [hrun] at h
      obtain ⟨h1, h2, h3⟩ := manage_tick_trailing_step cfg pos inp pos1 hT hm
      obtain ⟨g1, g2, g3⟩ := ih pos1 h1 (h2.trans hB) s' h
      refine ⟨g1, g2, fun hall => ?_⟩
      rw [g3 fun i hi => hall i (List.mem_cons_of_mem _ hi),
        h3 (hall inp (List.mem_cons_self _ _))]

/-- Concrete instance of `trailing_activation_not_retried`: the
post-failed-activation state run through one further SAR-less tick above
the trigger. -/
theorem trailing_activation_not_retried_witness :
    (⟨.long, 5000, 4995, 5010, true, false⟩ : PositionState).trailing_stop_activated = true ∧
      (⟨.long, 5000, 4995, 5010, true, false⟩ : PositionState).breakeven_activated = false ∧
      ((∀ i ∈ [failed_breakeven_tick], i.sar = none) →
        (⟨.long, 5000, 4995, 5010, true, false⟩ : PositionState).stop_price =
          (⟨.long, 5000, 4995, 5010, true, false⟩ : PositionState).stop_price) :=
  trailing_activation_not_retried exit_cfg ⟨.long, 5000, 4995, 5010, true, false⟩
    [failed_breakeven_tick] rfl rfl ⟨.long, 5000, 4995, 5010, true, false⟩
    (by
      have hds : Direction.long ≠ Direction.short := by decide
      norm_num [manage_run, manage_tick, check_exit_conditions,
        update_trailing_stop, as_price, exit_cfg, failed_breakeven_tick, hds])

/-- Python `int()` applied to a float ratio: truncation toward zero,
written on the rational's normalized numerator and denominator. -/
def int_trunc (q : ℚ) : ℤ := q.num.tdiv q.den

/-- `RiskManager._get_max_position_size` (risk_manager.py lines 127-130):
hardcoded default maximum of 10 contracts. -/
def get_max_position_size : ℤ := 10

/-- The `risk_amount` computed by `calculate_position_size`
(risk_manager.py line 36): the per-trade risk fraction of the account
balance. -/
def risk_amount (risk_per_trade balance : ℚ) : ℚ := risk_per_trade * balance

/-- The `stop_distance_ticks` computed by `calculate_position_size`
(risk_manager.py lines 48-49): the absolute entry-to-stop distance in
ticks. -/
def stop_distance_ticks (tick_size entry_price stop_price : ℚ) : ℚ :=
  |entry_price - stop_price| / tick_size

/-- The `risk_per_contract` computed by `calculate_position_size`
(risk_manager.py line 50). -/
def risk_per_contract (tick_value tick_size entry_price stop_price : ℚ) : ℚ :=
  stop_distance_ticks tick_size entry_price stop_price * tick_value

/-- `RiskManager.calculate_position_size` (risk_manager.py lines 27-59):
None when the account info is unavailable, the balance non-positive, the
instrument tick metadata unavailable or zero, or the risk per contract
non-positive; otherwise the truncated `risk_amount / risk_per_contract`,
capped above by the maximum position size and below by 1. -/
def calculate_position_size (risk_per_trade : ℚ) (balance : Option ℚ)
    (tick_meta : Option (ℚ × ℚ)) (entry_price stop_price : ℚ) : Option ℤ :=
  match balance with
  | none => none
  | some b =>
    if b ≤ 0 then none
    else
      match tick_meta with
      | none => none
      | some (tick_value, tick_size) =>
        if tick_value = 0 ∨ tick_size = 0 then none
        else
          if risk_per_contract tick_value tick_size entry_price stop_price ≤ 0 then
            none
          else
            let position_size :=
              int_trunc (risk_amount risk_per_trade b /
                risk_per_contract tick_value tick_size entry_price stop_price)
            let position_size := min position_size get_max_position_size
            some (max 1 position_size)

/-- C9: with balance 100000, risk per trade 0.005, tick value 12.50, tick
size 0.25, entry 5000 and stop 4995, `calculate_position_size` computes a
stop distance of 20 ticks, risk per contract 250 and risk amount 500, and
returns the position size 2, which lies within the clamp range
`[1, max_position_size]`. -/
theorem calculate_position_size_example :
    stop_distance_ticks (1 / 4) 5000 4995 = 20 ∧
      risk_per_contract (25 / 2) (1 / 4) 5000 4995 = 250 ∧
      risk_amount (5 / 1000) 100000 = 500 ∧
      calculate_position_size (5 / 1000) (some 100000) (some (25 / 2, 1 / 4))
          5000 4995 = some 2 ∧
      (1 : ℤ) ≤ 2 ∧ (2 : ℤ) ≤ get_max_position_size := by
  have habs : |(5000 : ℚ) - 4995| = 5 := by
    rw [show (5000 : ℚ) - 4995 = 5 by norm_num]
    exact abs_of_pos (by norm_num)
  have hsdt : stop_distance_ticks (1 / 4) 5000 4995 = 20 := by
    rw [stop_distance_ticks, habs]
    norm_num
  have hrpc : risk_per_contract (25 / 2) (1 / 4) 5000 4995 = 250 := by
    rw [risk_per_contract, hsdt]
    norm_num
  have hra : risk_amount (5 / 1000) 100000 = 500 := by
    rw [risk_amount]
    norm_num
  refine ⟨hsdt, hrpc, hra, ?_, by norm_num, by norm_num [get_max_position_size]⟩
  rw [calculate_position_size]
  rw [if_neg (by norm_num), if_neg (by norm_num), if_neg (by rw [hrpc]; norm_num)]
  have hq : risk_amount (5 / 1000) 100000 /
      risk_per_contract (25 / 2) (1 / 4) 5000 4995 = 2 := by
    rw [hra, hrpc]
    norm_num
  rw [hq]
  rfl

end TrendMomentumX
